import Mathlib

/-!
Verification of the akon debugging harness: a shallow embedding of
`src/test_openconnect.c` (auth-form callback and session driver `main`)
and `src/akon-core/progress_shim.c` (progress routing shim), with
theorems checking the design specification's claims against the code.
-/

namespace Akon

/-! ## Form model

`struct oc_form_opt` carries a possibly-null `name`, a kind, the allowed
choices of a select field, and the `_value` slot filled by the callback.
-/

/-- Field kind, from the spec's AuthField enum (text | password | choice);
`oc_form_opt.type` in the library's header. The callback under test never
inspects it. -/
inductive FieldKind
  | text
  | password
  | choice
deriving DecidableEq, Repr

/-- One `struct oc_form_opt` entry of an auth form: `name` is `none` when the
C pointer is null, `value` models the `_value` slot (`none` = unset),
`choices` the allowed values of a choice field. -/
structure FormOpt where
  name : Option String
  kind : FieldKind := FieldKind.text
  choices : List String := []
  value : Option String := none
deriving DecidableEq, Repr

/-! ## strstr

`strstr(hay, needle)` returns non-null iff `needle` occurs as a contiguous
substring of `hay` (the empty needle always matches). -/

/-- Prefix test: `strStartsWith hay needle` holds when `needle` begins `hay`. -/
def strStartsWith : List Char → List Char → Bool
  | _, [] => true
  | [], _ :: _ => false
  | a :: as, b :: bs => (a = b) && strStartsWith as bs

/-- Substring test: `strstrL hay needle` holds when `needle` occurs contiguously inside `hay`. -/
def strstrL : List Char → List Char → Bool
  | [], needle => needle.isEmpty
  | hay@(_ :: rest), needle => strStartsWith hay needle || strstrL rest needle

/-- C `strstr` as a Bool: does `needle` occur inside `hay`? -/
def strstr (hay needle : String) : Bool :=
  strstrL hay.toList needle.toList

/-! ## The auth-form callback (`process_auth_form_cb`)

```c
for (opt = form->opts; opt; opt = opt->next) {
    if (opt->name) {
        if (strstr(opt->name, "user") || strstr(opt->name, "name"))
            opt->_value = strdup("vicwil");
        else if (strstr(opt->name, "pass") || strstr(opt->name, "secret"))
            opt->_value = strdup("test123");
    }
}
return 0;
```
-/

/-- The per-field body of the callback's loop: a null name is skipped;
a name containing "user" or "name" gets value "vicwil"; otherwise a name
containing "pass" or "secret" gets value "test123"; otherwise the field is
left untouched. -/
def fillOpt (opt : FormOpt) : FormOpt :=
  match opt.name with
  | none => opt
  | some n =>
    if strstr n "user" || strstr n "name" then { opt with value := some "vicwil" }
    else if strstr n "pass" || strstr n "secret" then { opt with value := some "test123" }
    else opt

/-- The callback `process_auth_form_cb`: walks the option list in order, fills each field
by `fillOpt`, and returns 0 unconditionally. The result pairs the updated
field list with the C return code. -/
def process_auth_form_cb (form : List FormOpt) : List FormOpt × Int :=
  (form.map fillOpt, 0)

/-- The static-map provider has a value for a field exactly when its name is
non-null and matches one of the four substring patterns. -/
def providerHas (opt : FormOpt) : Bool :=
  match opt.name with
  | none => false
  | some n => strstr n "user" || strstr n "name" || strstr n "pass" || strstr n "secret"

/-! ## The progress shim (`progress_shim.c`)

```c
out = (level == PRG_ERR) ? stderr : stdout;
vfprintf(out, fmt, args);
fflush(out);
```
-/

/-- An output stream of the process: standard output or standard error. -/
inductive OStream
  | stdout
  | stderr
deriving DecidableEq, Repr

/-- Message severity, the spec's ProgressMessage enum. -/
inductive Severity
  | error
  | info
  | debug
  | trace
deriving DecidableEq, Repr

/-- The `PRG_*` level constants of `openconnect.h` (`PRG_ERR = 0`,
`PRG_INFO = 1`, `PRG_DEBUG = 2`, `PRG_TRACE = 3`). -/
def prgLevel : Severity → Int
  | Severity.error => 0
  | Severity.info => 1
  | Severity.debug => 2
  | Severity.trace => 3

/-- One observable side effect of the shim: a formatted write to a stream,
or a flush of a stream. -/
inductive ShimAct
  | vfprintfTo (s : OStream) (text : String)
  | fflushOf (s : OStream)
deriving DecidableEq, Repr

/-- The stream `progress_shim` selects: `stderr` exactly for `PRG_ERR` (0),
`stdout` for every other level. -/
def shimStream (level : Int) : OStream :=
  if level = 0 then OStream.stderr else OStream.stdout

/-- The shim `progress_shim`: the ordered side effects of one call — a single
`vfprintf` of the formatted text to the selected stream, then an `fflush`
of that same stream before returning. -/
def progress_shim (level : Int) (text : String) : List ShimAct :=
  [ShimAct.vfprintfTo (shimStream level) text, ShimAct.fflushOf (shimStream level)]

/-! ## The session driver (`main` of `test_openconnect.c`)

`main` is straight-line code over five engine results; we embed it as a
function of those results, producing the ordered trace of observable
events (stream writes and engine calls) together with the C return code.
-/

/-- The engine's responses in one run: return codes of
`openconnect_init_ssl`, `openconnect_set_protocol`,
`openconnect_parse_url` and `openconnect_obtain_cookie`, and whether
`openconnect_vpninfo_new` returned a non-null handle. -/
structure Engine where
  init_ssl : Int
  vpninfo_new_ok : Bool
  set_protocol : Int
  parse_url : Int
  obtain_cookie : Int
deriving DecidableEq, Repr

/-- An observable event of a driver run: a write to stdout or stderr, or a
call into the engine (`openconnect_disable_dtls`,
`openconnect_obtain_cookie`, `openconnect_vpninfo_free`). -/
inductive Ev
  | stdout (msg : String)
  | stderr (msg : String)
  | callDisableDtls
  | callObtainCookie
  | callFree
deriving DecidableEq, Repr

/-- The message `main` prints once `obtain_cookie` has returned:
`"Authentication failed"` on stderr for a nonzero code, else
`"Authentication successful!"` on stdout. -/
def cookie_report (ret : Int) : Ev :=
  if ret ≠ 0 then Ev.stderr "Authentication failed\n"
  else Ev.stdout "Authentication successful!\n"

/-- The driver `main` of `test_openconnect.c`, as the ordered event trace
paired with the process return code, for a given set of engine responses. -/
def main_run (e : Engine) : List Ev × Int :=
  let t0 := [Ev.stdout "Initializing OpenConnect...\n"]
  if e.init_ssl ≠ 0 then
    (t0 ++ [Ev.stderr "Failed to init SSL\n"], 1)
  else
    let t1 := t0 ++ [Ev.stdout "Creating vpninfo...\n"]
    if !e.vpninfo_new_ok then
      (t1 ++ [Ev.stderr "Failed to create vpninfo\n"], 1)
    else
      let t2 := t1 ++ [Ev.stdout "Setting protocol to f5...\n"]
      if e.set_protocol ≠ 0 then
        (t2 ++ [Ev.stderr "Failed to set protocol\n"], 1)
      else
        let t3 := t2 ++ [Ev.stdout "Parsing URL...\n"]
        if e.parse_url ≠ 0 then
          (t3 ++ [Ev.stderr "Failed to parse URL\n"], 1)
        else
          let t4 := t3 ++
            [Ev.stdout "Disabling DTLS...\n", Ev.callDisableDtls,
             Ev.stdout "Obtaining cookie (this will make HTTPS requests)...\n",
             Ev.callObtainCookie,
             Ev.stdout ("openconnect_obtain_cookie returned: " ++
               toString e.obtain_cookie ++ "\n")]
          (t4 ++ [cookie_report e.obtain_cookie, Ev.callFree], e.obtain_cookie)

/-- Counts the `openconnect_vpninfo_free` calls in a trace. -/
def countFree (t : List Ev) : Nat :=
  t.countP fun ev => ev = Ev.callFree

/-- Modelled from the spec: the Outcome taxonomy of the Outcome Classifier
(§4.4), which has no counterpart under `src/`. -/
inductive Outcome
  | Success
  | AuthRejected
  | RetryableNetworkError
  | FatalConfigError
deriving DecidableEq, Repr

/-- Modelled from the spec: classification of a finished driver run.
"code 0 → Success"; a failure after `negotiate` ran is an
authentication-form rejection ("codes representing authentication-form
rejection → AuthRejected"); "malformed configuration detected before any
network activity → FatalConfigError", i.e. a nonzero return with
`negotiate` never invoked. -/
def runOutcome (t : List Ev) (ret : Int) : Outcome :=
  if ret = 0 then Outcome.Success
  else if Ev.callObtainCookie ∈ t then Outcome.AuthRejected
  else Outcome.FatalConfigError

/-- An engine run in which every step succeeds and `obtain_cookie`
returns 0. -/
def engAllOk : Engine :=
  ⟨0, true, 0, 0, 0⟩

/-- An engine run in which `openconnect_set_protocol` fails with `-EINVAL`
(-22) and everything before it succeeded. -/
def engBadProtocol : Engine :=
  ⟨0, true, -22, 0, 0⟩

/-- An engine run in which `openconnect_parse_url` fails with `-EINVAL`
(-22) and everything before it succeeded. -/
def engBadUrl : Engine :=
  ⟨0, true, 0, -22, 0⟩

/-- An engine run in which configuration succeeds and `obtain_cookie`
returns the authentication-rejection code 1. -/
def engAuthFail : Engine :=
  ⟨0, true, 0, 0, 1⟩

/-- An engine run in which `openconnect_init_ssl` fails. -/
def engSslFail : Engine :=
  ⟨1, true, 0, 0, 0⟩

/-- An auth form consisting of a single choice field named
"secondary_password" whose allowed values are `push` and `sms`; the
static map matches "pass" and supplies "test123", which is out of set. -/
def badChoiceForm : List FormOpt :=
  [⟨some "secondary_password", FieldKind.choice, ["push", "sms"], none⟩]

/-! ## Helper lemmas -/

/-- The post-negotiation report is never the teardown call. -/
theorem cookie_report_ne_free (r : Int) : cookie_report r ≠ Ev.callFree := by
  unfold cookie_report
  split <;> simp

/-- The full event trace and return code of a run whose configuration steps
all succeed. -/
theorem main_run_configured (e : Engine) (h1 : e.init_ssl = 0)
    (h2 : e.vpninfo_new_ok = true) (h3 : e.set_protocol = 0)
    (h4 : e.parse_url = 0) :
    main_run e =
      ([Ev.stdout "Initializing OpenConnect...\n",
        Ev.stdout "Creating vpninfo...\n",
        Ev.stdout "Setting protocol to f5...\n",
        Ev.stdout "Parsing URL...\n",
        Ev.stdout "Disabling DTLS...\n",
        Ev.callDisableDtls,
        Ev.stdout "Obtaining cookie (this will make HTTPS requests)...\n",
        Ev.callObtainCookie,
        Ev.stdout ("openconnect_obtain_cookie returned: " ++
          toString e.obtain_cookie ++ "\n"),
        cookie_report e.obtain_cookie,
        Ev.callFree], e.obtain_cookie) := by
  simp [main_run, h1, h2, h3, h4]

/-! ## Claim theorems -/

/-- C9: the auth-form callback returns 0 (success) for every form
whatsoever; no input form makes it return the nonzero abort code. -/
theorem callback_always_returns_zero (form : List FormOpt) :
    (process_auth_form_cb form).2 = 0 :=
  rfl

/-- C2: the static-map resolver processes the fields in order (the result
is the elementwise image of `fillOpt`); a field whose name contains
"user" or "name" is assigned "vicwil"; otherwise a name containing "pass"
or "secret" is assigned "test123"; any other named field's value is left
unset, and a nameless field is untouched. -/
theorem static_map_assignment (form : List FormOpt) :
    (process_auth_form_cb form).1 = form.map fillOpt ∧
    (∀ opt : FormOpt, opt.name = none → fillOpt opt = opt) ∧
    ∀ opt : FormOpt, ∀ n, opt.name = some n →
      ((strstr n "user" || strstr n "name") = true →
        (fillOpt opt).value = some "vicwil") ∧
      ((strstr n "user" || strstr n "name") = false →
        (strstr n "pass" || strstr n "secret") = true →
        (fillOpt opt).value = some "test123") ∧
      ((strstr n "user" || strstr n "name") = false →
        (strstr n "pass" || strstr n "secret") = false →
        opt.value = none → (fillOpt opt).value = none) := by
  refine ⟨rfl, ?_, ?_⟩
  · intro opt h
    simp [fillOpt, h]
  · intro opt n h
    refine ⟨?_, ?_, ?_⟩
    · intro hm
      simp [fillOpt, h, hm]
    · intro hm1 hm2
      simp [fillOpt, h, hm1, hm2]
    · intro hm1 hm2 hv
      simp [fillOpt, h, hm1, hm2, hv]

/-- Witness for C2 at the spec's scenario fields "username", "password"
and at the unmatched field "group". -/
theorem static_map_assignment_witness :
    (fillOpt ⟨some "username", FieldKind.text, [], none⟩).value = some "vicwil" ∧
    (fillOpt ⟨some "password", FieldKind.password, [], none⟩).value = some "test123" ∧
    (fillOpt ⟨some "group", FieldKind.text, [], none⟩).value = none :=
  ⟨((static_map_assignment []).2.2 _ "username" rfl).1 (by decide),
   ((static_map_assignment []).2.2 _ "password" rfl).2.1 (by decide) (by decide),
   ((static_map_assignment []).2.2 _ "group" rfl).2.2 (by decide) (by decide) rfl⟩

/-- C10: a field with a null name is skipped without matching or
assignment: the output at its position is the field unchanged, and the
remaining fields are still processed (positions are preserved). -/
theorem null_name_field_skipped (form : List FormOpt) (i : Nat) (opt : FormOpt)
    (hi : form[i]? = some opt) (hname : opt.name = none) :
    ((process_auth_form_cb form).1)[i]? = some opt := by
  simp [process_auth_form_cb, hi, fillOpt, hname]

/-- Witness for C10: a nameless first field passes through unchanged. -/
theorem null_name_field_skipped_witness :
    ((process_auth_form_cb
        [⟨none, FieldKind.text, [], none⟩,
         ⟨some "username", FieldKind.text, [], none⟩]).1)[0]?
      = some ⟨none, FieldKind.text, [], none⟩ :=
  null_name_field_skipped _ 0 _ rfl rfl

/-- C6: for every form whose fields arrive with unset values, resolution
returns success (0) and attaches a value to exactly those fields for which
the static provider had one; the empty form yields the empty field list. -/
theorem resolve_value_domain (form : List FormOpt)
    (hunset : ∀ opt ∈ form, opt.value = none) :
    (process_auth_form_cb form).2 = 0 ∧
    (process_auth_form_cb form).1 = form.map fillOpt ∧
    (∀ opt ∈ form, ((fillOpt opt).value).isSome = providerHas opt) ∧
    (form = [] → (process_auth_form_cb form).1 = []) := by
  refine ⟨rfl, rfl, ?_, ?_⟩
  · intro opt hm
    have hv := hunset opt hm
    cases hname : opt.name with
    | none => simp [fillOpt, providerHas, hname, hv]
    | some n =>
      cases hu : strstr n "user" <;> cases hn2 : strstr n "name" <;>
        cases hp : strstr n "pass" <;> cases hs : strstr n "secret" <;>
        simp [fillOpt, providerHas, hname, hu, hn2, hp, hs, hv]
  · intro h
    subst h
    rfl

/-- Witness for C6 at the empty form: success and an empty mapping. -/
theorem resolve_value_domain_witness :
    (process_auth_form_cb ([] : List FormOpt)).2 = 0 ∧
    (process_auth_form_cb ([] : List FormOpt)).1 = [] :=
  ⟨(resolve_value_domain [] (by simp)).1,
   (resolve_value_domain [] (by simp)).2.2.2 rfl⟩

/-- C1 counterexample: on a choice field whose allowed values are
`push`/`sms` the provider supplies "test123" (the name matches "pass"),
yet the callback returns 0 with the out-of-set value attached instead of
the nonzero abort code. -/
theorem choice_out_of_set_counterexample :
    (process_auth_form_cb badChoiceForm).2 = 0 ∧
    (process_auth_form_cb badChoiceForm).1.map FormOpt.value = [some "test123"] ∧
    "test123" ∉ (["push", "sms"] : List String) := by
  decide

/-- C1 amended: the callback never aborts — it returns 0 for every form —
and never consults a field's kind or allowed choices: the value it
attaches depends only on the field's name and prior value. -/
theorem choice_constraints_ignored (form : List FormOpt) :
    (process_auth_form_cb form).2 = 0 ∧
    ∀ opt opt' : FormOpt, opt.name = opt'.name → opt.value = opt'.value →
      (fillOpt opt).value = (fillOpt opt').value := by
  refine ⟨rfl, ?_⟩
  intro opt opt' hn hv
  cases h : opt.name with
  | none =>
    have h2 : opt'.name = none := by rw [← hn, h]
    simp [fillOpt, h, h2, hv]
  | some n =>
    have h2 : opt'.name = some n := by rw [← hn, h]
    cases hc1 : strstr n "user" || strstr n "name" <;>
      cases hc2 : strstr n "pass" || strstr n "secret" <;>
      simp [fillOpt, h, h2, hc1, hc2, hv]

/-- Witness for C1's amended claim: a choice-kind and a password-kind field
with the same name and prior value receive the same value. -/
theorem choice_constraints_ignored_witness :
    (fillOpt ⟨some "password", FieldKind.choice, ["push", "sms"], none⟩).value
      = (fillOpt ⟨some "password", FieldKind.password, [], none⟩).value :=
  (choice_constraints_ignored []).2 _ _ rfl rfl

/-- C3: for every emission, the shim writes the formatted text to stderr
exactly when the severity is Error, to stdout for every other severity,
and flushes the chosen stream (the write precedes the flush, both on the
same stream, and nothing else happens). -/
theorem progress_routing (sev : Severity) (text : String) :
    (progress_shim (prgLevel sev) text
        = [ShimAct.vfprintfTo OStream.stderr text, ShimAct.fflushOf OStream.stderr]
      ↔ sev = Severity.error) ∧
    (progress_shim (prgLevel sev) text
        = [ShimAct.vfprintfTo OStream.stdout text, ShimAct.fflushOf OStream.stdout]
      ↔ sev ≠ Severity.error) := by
  cases sev <;> simp [progress_shim, shimStream, prgLevel]

/-- C4 counterexample: when `openconnect_set_protocol` fails, the session
handle was successfully created, yet `main` returns without ever calling
`openconnect_vpninfo_free` — the resources are not released exactly once. -/
theorem free_skipped_counterexample :
    engBadProtocol.vpninfo_new_ok = true ∧
    countFree (main_run engBadProtocol).1 = 0 ∧
    ¬ countFree (main_run engBadProtocol).1 = 1 := by
  decide

/-- C4 amended: once both configuration steps succeed,
`openconnect_vpninfo_free` is called exactly once before `main` returns,
whatever `obtain_cookie` returned; but on the two configure-failure paths
(`set_protocol` or `parse_url` nonzero) `main` returns with the session
never released. -/
theorem session_free_exactly_once_when_configured (e : Engine)
    (h1 : e.init_ssl = 0) (h2 : e.vpninfo_new_ok = true) :
    (e.set_protocol = 0 → e.parse_url = 0 → countFree (main_run e).1 = 1) ∧
    (e.set_protocol ≠ 0 → countFree (main_run e).1 = 0) ∧
    (e.parse_url ≠ 0 → countFree (main_run e).1 = 0) := by
  refine ⟨?_, ?_, ?_⟩
  · intro h3 h4
    rw [main_run_configured e h1 h2 h3 h4]
    simp [countFree, cookie_report_ne_free]
  · intro h3
    simp [main_run, countFree, h1, h2, h3]
  · intro h4
    by_cases h3 : e.set_protocol = 0 <;>
      simp [main_run, countFree, h1, h2, h3, h4]

/-- Witness for C4's amended claim: in the all-successful run the free
call happens exactly once. -/
theorem session_free_witness :
    countFree (main_run engAllOk).1 = 1 :=
  (session_free_exactly_once_when_configured engAllOk rfl rfl).1 rfl rfl

/-- C5: once configured, `main` hands back `obtain_cookie`'s code
unchanged, reports "Authentication successful!" on stdout exactly for
code 0 and "Authentication failed" on stderr for every nonzero code, and
the report is a function of the terminal signal alone (the same signal
always yields the same return code). -/
theorem terminal_signal_classification (e : Engine)
    (h1 : e.init_ssl = 0) (h2 : e.vpninfo_new_ok = true)
    (h3 : e.set_protocol = 0) (h4 : e.parse_url = 0) :
    (main_run e).2 = e.obtain_cookie ∧
    cookie_report e.obtain_cookie ∈ (main_run e).1 ∧
    (e.obtain_cookie = 0 →
      cookie_report e.obtain_cookie = Ev.stdout "Authentication successful!\n") ∧
    (e.obtain_cookie ≠ 0 →
      cookie_report e.obtain_cookie = Ev.stderr "Authentication failed\n") ∧
    ∀ e' : Engine, e'.init_ssl = 0 → e'.vpninfo_new_ok = true →
      e'.set_protocol = 0 → e'.parse_url = 0 →
      e'.obtain_cookie = e.obtain_cookie → (main_run e').2 = (main_run e).2 := by
  rw [main_run_configured e h1 h2 h3 h4]
  refine ⟨rfl, by simp, ?_, ?_, ?_⟩
  · intro hr
    simp [cookie_report, hr]
  · intro hr
    simp [cookie_report, hr]
  · intro e' h1' h2' h3' h4' hsig
    rw [main_run_configured e' h1' h2' h3' h4', hsig]

/-- Witness for C5 at the all-successful run and the rejected run. -/
theorem terminal_signal_classification_witness :
    (main_run engAllOk).2 = 0 ∧
    cookie_report engAuthFail.obtain_cookie = Ev.stderr "Authentication failed\n" :=
  ⟨(terminal_signal_classification engAllOk rfl rfl rfl rfl).1,
   (terminal_signal_classification engAuthFail rfl rfl rfl rfl).2.2.2.1 (by decide)⟩

/-- C7: when a configuration step fails (`set_protocol` or `parse_url`
returns nonzero), `main` returns the failure code 1,
`openconnect_obtain_cookie` is never called, and the run classifies as
FatalConfigError. -/
theorem config_failure_aborts_before_negotiate (e : Engine)
    (h1 : e.init_ssl = 0) (h2 : e.vpninfo_new_ok = true)
    (h : e.set_protocol ≠ 0 ∨ e.parse_url ≠ 0) :
    (main_run e).2 = 1 ∧
    Ev.callObtainCookie ∉ (main_run e).1 ∧
    runOutcome (main_run e).1 (main_run e).2 = Outcome.FatalConfigError := by
  rcases h with h3 | h4
  · simp [main_run, runOutcome, h1, h2, h3]
  · by_cases h3 : e.set_protocol = 0 <;>
      simp [main_run, runOutcome, h1, h2, h3, h4]

/-- Witness for C7 at the run whose protocol string is rejected. -/
theorem config_failure_witness :
    (main_run engBadProtocol).2 = 1 ∧
    Ev.callObtainCookie ∉ (main_run engBadProtocol).1 :=
  ⟨(config_failure_aborts_before_negotiate engBadProtocol rfl rfl
      (Or.inl (by decide))).1,
   (config_failure_aborts_before_negotiate engBadProtocol rfl rfl
      (Or.inl (by decide))).2.1⟩

/-- C8: every run of `main` that returns a nonzero code has written at
least one message to the error stream before returning. -/
theorem failure_emits_error_message (e : Engine) (h : (main_run e).2 ≠ 0) :
    ∃ msg, Ev.stderr msg ∈ (main_run e).1 := by
  by_cases h1 : e.init_ssl = 0
  · by_cases h2 : e.vpninfo_new_ok = true
    · by_cases h3 : e.set_protocol = 0
      · by_cases h4 : e.parse_url = 0
        · have hr : e.obtain_cookie ≠ 0 := by
            intro hc
            apply h
            rw [main_run_configured e h1 h2 h3 h4, hc]
          refine ⟨"Authentication failed\n", ?_⟩
          rw [main_run_configured e h1 h2 h3 h4]
          simp [cookie_report, hr]
        · exact ⟨"Failed to parse URL\n", by simp [main_run, h1, h2, h3, h4]⟩
      · exact ⟨"Failed to set protocol\n", by simp [main_run, h1, h2, h3]⟩
    · exact ⟨"Failed to create vpninfo\n", by simp [main_run, h1, h2]⟩
  · exact ⟨"Failed to init SSL\n", by simp [main_run, h1]⟩

/-- Witness for C8 at the run whose SSL initialization fails. -/
theorem failure_emits_error_witness :
    ∃ msg, Ev.stderr msg ∈ (main_run engSslFail).1 :=
  failure_emits_error_message engSslFail (by decide)

end Akon
